import Mathlib

/-!
Shallow embedding of the LSTM-SNP recurrent layer (`recurrent.py`).

Tensors are modelled per batch row: a rank-1 tensor is a `List ℚ`, a weight
matrix is a `List (List ℚ)` (rows indexed by the contraction dimension, as in
`K.dot(x, w)`).  Activation functions are opaque `ℚ → ℚ` applied elementwise.
Fallible operations (adding a `None` bias, an unknown implementation mode)
return `Except`.
-/

/-- Elementwise addition (`+` on tensors of equal shape). -/
def vadd (a b : List ℚ) : List ℚ := List.zipWith (· + ·) a b

/-- Elementwise multiplication (`*` on tensors of equal shape). -/
def vmul (a b : List ℚ) : List ℚ := List.zipWith (· * ·) a b

/-- Elementwise subtraction (`-` on tensors of equal shape). -/
def vsub (a b : List ℚ) : List ℚ := List.zipWith (· - ·) a b

/-- Python column slice `v[lo:hi]`: elements at indices `lo, ..., hi-1`. -/
def sliceCols (v : List ℚ) (lo hi : Nat) : List ℚ := (v.take hi).drop lo

/-- `K.dot(x, w)` for a single batch row `x` and a matrix `w` whose rows are
indexed by the entries of `x`; `cols` is the column count of `w`. -/
def kdot (x : List ℚ) (w : List (List ℚ)) (cols : Nat) : List ℚ :=
  (List.zipWith (fun xi row => row.map (fun wij => xi * wij)) x w).foldr
    vadd (List.replicate cols 0)

/-- A dropout-mask constant: either the scalar `K.cast_to_floatx(1.)`
(broadcasting no-op) or a drawn mask vector. -/
inductive Mask where
  | scalar (a : ℚ)
  | vec (v : List ℚ)
deriving DecidableEq

/-- `x * mask` with numpy broadcasting for the scalar case. -/
def maskMul (x : List ℚ) : Mask → List ℚ
  | Mask.scalar a => x.map (fun xi => xi * a)
  | Mask.vec v => vmul x v

/-- The failures `LSTMSNPCell.step` can raise: the explicit
`ValueError('Unknown implementation mode.')`, and the `TypeError` Python
raises when mode 1 adds a bias slice that is `None`. -/
inductive StepError where
  | unknownImplementation
  | noneBiasAdd
deriving DecidableEq

/-- The built `LSTMSNPCell`: configuration plus learned parameters.
`kernel` is `(input_dim, units*4)`, `recurrent_kernel` is `(units, units*4)`,
`bias` is `Some` of a `(units*4,)` vector exactly when `use_bias` holds
(as `build` arranges), otherwise `None`. -/
structure LSTMSNPCell where
  units : Nat
  implementation : Nat
  activation : ℚ → ℚ
  recurrent_activation : ℚ → ℚ
  use_bias : Bool
  dropout : ℚ
  recurrent_dropout : ℚ
  kernel : List (List ℚ)
  recurrent_kernel : List (List ℚ)
  bias : Option (List ℚ)

/-- `self.kernel_r = self.kernel[:, :self.units]` (a column view). -/
def LSTMSNPCell.kernel_r (c : LSTMSNPCell) : List (List ℚ) :=
  c.kernel.map (fun row => sliceCols row 0 c.units)

/-- `self.kernel_c = self.kernel[:, self.units: self.units * 2]`. -/
def LSTMSNPCell.kernel_c (c : LSTMSNPCell) : List (List ℚ) :=
  c.kernel.map (fun row => sliceCols row c.units (c.units * 2))

/-- `self.kernel_o = self.kernel[:, self.units * 2: self.units * 3]`. -/
def LSTMSNPCell.kernel_o (c : LSTMSNPCell) : List (List ℚ) :=
  c.kernel.map (fun row => sliceCols row (c.units * 2) (c.units * 3))

/-- `self.kernel_a = self.kernel[:, self.units * 3:]`. -/
def LSTMSNPCell.kernel_a (c : LSTMSNPCell) : List (List ℚ) :=
  c.kernel.map (fun row => row.drop (c.units * 3))

/-- `self.recurrent_kernel_r = self.recurrent_kernel[:, :self.units]`. -/
def LSTMSNPCell.recurrent_kernel_r (c : LSTMSNPCell) : List (List ℚ) :=
  c.recurrent_kernel.map (fun row => sliceCols row 0 c.units)

/-- `self.recurrent_kernel_c = self.recurrent_kernel[:, units: units * 2]`. -/
def LSTMSNPCell.recurrent_kernel_c (c : LSTMSNPCell) : List (List ℚ) :=
  c.recurrent_kernel.map (fun row => sliceCols row c.units (c.units * 2))

/-- `self.recurrent_kernel_o = self.recurrent_kernel[:, units * 2: units * 3]`. -/
def LSTMSNPCell.recurrent_kernel_o (c : LSTMSNPCell) : List (List ℚ) :=
  c.recurrent_kernel.map (fun row => sliceCols row (c.units * 2) (c.units * 3))

/-- `self.recurrent_kernel_a = self.recurrent_kernel[:, units * 3:]`. -/
def LSTMSNPCell.recurrent_kernel_a (c : LSTMSNPCell) : List (List ℚ) :=
  c.recurrent_kernel.map (fun row => row.drop (c.units * 3))

/-- `self.bias_r = self.bias[:self.units]` when `use_bias`, else `None`. -/
def LSTMSNPCell.bias_r (c : LSTMSNPCell) : Option (List ℚ) :=
  c.bias.map (fun b => sliceCols b 0 c.units)

/-- `self.bias_c = self.bias[self.units: self.units * 2]` when built with bias. -/
def LSTMSNPCell.bias_c (c : LSTMSNPCell) : Option (List ℚ) :=
  c.bias.map (fun b => sliceCols b c.units (c.units * 2))

/-- `self.bias_o = self.bias[self.units * 2: self.units * 3]` when built with bias. -/
def LSTMSNPCell.bias_o (c : LSTMSNPCell) : Option (List ℚ) :=
  c.bias.map (fun b => sliceCols b (c.units * 2) (c.units * 3))

/-- `self.bias_a = self.bias[self.units * 3:]` when built with bias. -/
def LSTMSNPCell.bias_a (c : LSTMSNPCell) : Option (List ℚ) :=
  c.bias.map (fun b => b.drop (c.units * 3))

/-- The `states` list passed to `step`: `states[0] = h_tm1`,
`states[1] = u_tm1`, `states[2] = dp_mask` (4 entries),
`states[3] = rec_dp_mask` (4 entries). -/
structure StepStates where
  h_tm1 : List ℚ
  u_tm1 : List ℚ
  dp_mask : Fin 4 → Mask
  rec_dp_mask : Fin 4 → Mask

/-- The input-path terms `x_r, x_c, x_o, x_a` of `LSTMSNPCell.step`
(source lines 763-774): mode 0 slices the preprocessed input, mode 1
projects through each gate kernel slice and adds that gate's bias slice
unconditionally (a `None` bias slice makes the addition fail), any other
mode in this branch raises the unknown-implementation error. -/
def inputTerms (c : LSTMSNPCell) (inputs : List ℚ) (dp_mask : Fin 4 → Mask) :
    Except StepError (List ℚ × List ℚ × List ℚ × List ℚ) :=
  if c.implementation = 0 then
    Except.ok (sliceCols inputs 0 c.units,
               sliceCols inputs c.units (2 * c.units),
               sliceCols inputs (2 * c.units) (3 * c.units),
               inputs.drop (3 * c.units))
  else if c.implementation = 1 then
    match c.bias_r, c.bias_c, c.bias_o, c.bias_a with
    | some br, some bc, some bo, some ba =>
        Except.ok
          (vadd (kdot (maskMul inputs (dp_mask 0)) c.kernel_r c.units) br,
           vadd (kdot (maskMul inputs (dp_mask 1)) c.kernel_c c.units) bc,
           vadd (kdot (maskMul inputs (dp_mask 2)) c.kernel_o c.units) bo,
           vadd (kdot (maskMul inputs (dp_mask 3)) c.kernel_a c.units) ba)
    | _, _, _, _ => Except.error StepError.noneBiasAdd
  else
    Except.error StepError.unknownImplementation

/-- `LSTMSNPCell.step` (source lines 741-788).  Mode 2 projects the
dropout-masked input through the full kernel and the dropout-masked `u_tm1`
through the full recurrent kernel, adds the bias when enabled, splits the
result into four column ranges, applies the recurrent activation to the
`r`, `c`, `o` ranges and the primary activation to the `a` range.  Modes 0
and 1 take the per-gate input terms from `inputTerms`, add per-gate
recurrent projections of the dropout-masked `u_tm1`, and apply the
recurrent activation to all four gates (including `a`).  The state update is
`u = r * u_tm1 - c * a`, `h = o * a`, returning `(h, [h, u])`. -/
def step (c : LSTMSNPCell) (inputs : List ℚ) (st : StepStates) :
    Except StepError (List ℚ × List (List ℚ)) :=
  if c.implementation = 2 then
    let zlin := vadd (kdot (maskMul inputs (st.dp_mask 0)) c.kernel (4 * c.units))
                     (kdot (maskMul st.u_tm1 (st.rec_dp_mask 0)) c.recurrent_kernel (4 * c.units))
    match (if c.use_bias then
             match c.bias with
             | some b => Except.ok (vadd zlin b)
             | none => Except.error StepError.noneBiasAdd
           else Except.ok zlin : Except StepError (List ℚ)) with
    | Except.error e => Except.error e
    | Except.ok z =>
      let r := (sliceCols z 0 c.units).map c.recurrent_activation
      let cg := (sliceCols z c.units (2 * c.units)).map c.recurrent_activation
      let o := (sliceCols z (2 * c.units) (3 * c.units)).map c.recurrent_activation
      let a := (z.drop (3 * c.units)).map c.activation
      let u := vsub (vmul r st.u_tm1) (vmul cg a)
      let h := vmul o a
      Except.ok (h, [h, u])
  else
    match inputTerms c inputs st.dp_mask with
    | Except.error e => Except.error e
    | Except.ok (x_r, x_c, x_o, x_a) =>
      let r := (vadd x_r (kdot (maskMul st.u_tm1 (st.rec_dp_mask 0))
                  c.recurrent_kernel_r c.units)).map c.recurrent_activation
      let cg := (vadd x_c (kdot (maskMul st.u_tm1 (st.rec_dp_mask 1))
                  c.recurrent_kernel_c c.units)).map c.recurrent_activation
      let o := (vadd x_o (kdot (maskMul st.u_tm1 (st.rec_dp_mask 2))
                  c.recurrent_kernel_o c.units)).map c.recurrent_activation
      let a := (vadd x_a (kdot (maskMul st.u_tm1 (st.rec_dp_mask 3))
                  c.recurrent_kernel_a c.units)).map c.recurrent_activation
      let u := vsub (vmul r st.u_tm1) (vmul cg a)
      let h := vmul o a
      Except.ok (h, [h, u])

/-- The four gate values `(r, c, o, a)` that `step` computes, factored out
of `step` with the same branching (mode 2 fused then sliced; modes 0/1
per-gate), for stating which update rule `step` applies to them. -/
def stepGates (c : LSTMSNPCell) (inputs : List ℚ) (st : StepStates) :
    Except StepError (List ℚ × List ℚ × List ℚ × List ℚ) :=
  if c.implementation = 2 then
    let zlin := vadd (kdot (maskMul inputs (st.dp_mask 0)) c.kernel (4 * c.units))
                     (kdot (maskMul st.u_tm1 (st.rec_dp_mask 0)) c.recurrent_kernel (4 * c.units))
    match (if c.use_bias then
             match c.bias with
             | some b => Except.ok (vadd zlin b)
             | none => Except.error StepError.noneBiasAdd
           else Except.ok zlin : Except StepError (List ℚ)) with
    | Except.error e => Except.error e
    | Except.ok z =>
      Except.ok ((sliceCols z 0 c.units).map c.recurrent_activation,
                 (sliceCols z c.units (2 * c.units)).map c.recurrent_activation,
                 (sliceCols z (2 * c.units) (3 * c.units)).map c.recurrent_activation,
                 (z.drop (3 * c.units)).map c.activation)
  else
    match inputTerms c inputs st.dp_mask with
    | Except.error e => Except.error e
    | Except.ok (x_r, x_c, x_o, x_a) =>
      Except.ok ((vadd x_r (kdot (maskMul st.u_tm1 (st.rec_dp_mask 0))
                    c.recurrent_kernel_r c.units)).map c.recurrent_activation,
                 (vadd x_c (kdot (maskMul st.u_tm1 (st.rec_dp_mask 1))
                    c.recurrent_kernel_c c.units)).map c.recurrent_activation,
                 (vadd x_o (kdot (maskMul st.u_tm1 (st.rec_dp_mask 2))
                    c.recurrent_kernel_o c.units)).map c.recurrent_activation,
                 (vadd x_a (kdot (maskMul st.u_tm1 (st.rec_dp_mask 3))
                    c.recurrent_kernel_a c.units)).map c.recurrent_activation)

/-- `LSTMSNPCell.build` (source lines 625-684) restricted to what it
computes: the kernels come from the opaque initializer policies; when
`use_bias` holds the bias is first drawn from its initializer and, if
`unit_forget_bias` holds, overwritten with the constant vector that is zero
everywhere except ones at indices `units .. units*2 - 1`
(`bias_value = np.zeros((units*4,)); bias_value[units: units*2] = 1;
K.set_value(bias, bias_value)`); without `use_bias` the bias is `None`. -/
def LSTMSNPCell.build (units implementation : Nat)
    (activation recurrent_activation : ℚ → ℚ)
    (use_bias unit_forget_bias : Bool) (dropout recurrent_dropout : ℚ)
    (input_dim : Nat)
    (kernelInit recurrentInit : Nat → Nat → List (List ℚ))
    (biasInit : Nat → List ℚ) : LSTMSNPCell :=
  { units := units
    implementation := implementation
    activation := activation
    recurrent_activation := recurrent_activation
    use_bias := use_bias
    dropout := dropout
    recurrent_dropout := recurrent_dropout
    kernel := kernelInit input_dim (units * 4)
    recurrent_kernel := recurrentInit units (units * 4)
    bias :=
      if use_bias then
        some (if unit_forget_bias then
                (List.range (units * 4)).map
                  (fun i => if units ≤ i ∧ i < units * 2 then (1 : ℚ) else 0)
              else biasInit (units * 4))
      else none }

/-- `LSTMSNPCell.get_constants` (source lines 708-739).  The random draws
`K.dropout(ones, rate)` (one per list-comprehension iteration) are opaque
and supplied as `dropDraw`/`recDropDraw`.  A list of drawn masks is produced
for the input path only when `implementation == 0 and 0 < dropout < 1`;
otherwise four copies of the scalar `1` are appended.  Likewise for the
recurrent path with `0 < recurrent_dropout < 1`. -/
def LSTMSNPCell.get_constants (c : LSTMSNPCell)
    (dropDraw recDropDraw : Fin 4 → List ℚ) : List (List Mask) :=
  let dp_mask :=
    if c.implementation = 0 ∧ 0 < c.dropout ∧ c.dropout < 1 then
      [Mask.vec (dropDraw 0), Mask.vec (dropDraw 1),
       Mask.vec (dropDraw 2), Mask.vec (dropDraw 3)]
    else
      List.replicate 4 (Mask.scalar 1)
  let rec_dp_mask :=
    if 0 < c.recurrent_dropout ∧ c.recurrent_dropout < 1 then
      [Mask.vec (recDropDraw 0), Mask.vec (recDropDraw 1),
       Mask.vec (recDropDraw 2), Mask.vec (recDropDraw 3)]
    else
      List.replicate 4 (Mask.scalar 1)
  [dp_mask, rec_dp_mask]

/-- The `ValueError`s `Recurrent.call` raises before scanning: the state
count mismatch (source lines 271-275, message
`'Layer has N states but was passed M initial states.'`, carrying both
counts) and the unroll-without-static-length error (lines 277-288). -/
inductive RecError where
  | shapeMismatch (declared got : Nat)
  | unrollNeedsLength
deriving DecidableEq

/-- `Recurrent.call` (source lines 254-313) after initial-state resolution:
`initial_states` are the resolved state tensors, `numStates` is
`len(self.states)`, `timeDim` is the static time extent `input_shape[1]`
(`none` when unknown).  The checks run in source order; only when both pass
does control reach `K.rnn(self.step, ...)` and the subsequent stateful
updates, which are abstracted as the opaque continuation `runRnn` applied
to the initial states. -/
def RecurrentCall {ρ : Type} (numStates : Nat) (initial_states : List (List ℚ))
    (unroll : Bool) (timeDim : Option Nat)
    (runRnn : List (List ℚ) → ρ) : Except RecError ρ :=
  if initial_states.length ≠ numStates then
    Except.error (RecError.shapeMismatch numStates initial_states.length)
  else if unroll = true ∧ timeDim = none then
    Except.error RecError.unrollNeedsLength
  else
    Except.ok (runRnn initial_states)

/-- A serialized configuration value, as stored in the `get_config` dict:
booleans, integers, floats, serialized activation/initializer names, or
serialized regularizer/constraint policies (`None` allowed). -/
inductive ConfigValue where
  | boolV (b : Bool)
  | natV (n : Nat)
  | ratV (q : ℚ)
  | strV (s : String)
  | optStrV (s : Option String)
deriving DecidableEq

/-- The constructor parameters of a configured `LSTMSNPCell`, in the
serialized representation `get_config` stores (activations, initializers,
regularizers and constraints appear through their `serialize` names). -/
structure LSTMSNPConfig where
  return_sequences : Bool
  go_backwards : Bool
  stateful : Bool
  unroll : Bool
  implementation : Nat
  units : Nat
  activation : String
  recurrent_activation : String
  use_bias : Bool
  unit_forget_bias : Bool
  kernel_initializer : String
  recurrent_initializer : String
  bias_initializer : String
  kernel_regularizer : Option String
  recurrent_regularizer : Option String
  bias_regularizer : Option String
  activity_regularizer : Option String
  kernel_constraint : Option String
  recurrent_constraint : Option String
  bias_constraint : Option String
  dropout : ℚ
  recurrent_dropout : ℚ

/-- `Recurrent.get_config` (source lines 359-366):
`dict(list(base_config.items()) + list(config.items()))`, where
`base_config` comes from the external `Layer.get_config` (opaque here) and
`config` holds the five execution-mode flags. -/
def Recurrent.get_config (c : LSTMSNPConfig)
    (base_config : List (String × ConfigValue)) : List (String × ConfigValue) :=
  base_config ++
    [("return_sequences", ConfigValue.boolV c.return_sequences),
     ("go_backwards", ConfigValue.boolV c.go_backwards),
     ("stateful", ConfigValue.boolV c.stateful),
     ("unroll", ConfigValue.boolV c.unroll),
     ("implementation", ConfigValue.natV c.implementation)]

/-- `LSTMSNPCell.get_config` (source lines 790-809): the cell-specific
hyperparameters appended to `Recurrent.get_config`s result. -/
def LSTMSNPCell.config (c : LSTMSNPConfig)
    (base_config : List (String × ConfigValue)) : List (String × ConfigValue) :=
  Recurrent.get_config c base_config ++
    [("units", ConfigValue.natV c.units),
     ("activation", ConfigValue.strV c.activation),
     ("recurrent_activation", ConfigValue.strV c.recurrent_activation),
     ("use_bias", ConfigValue.boolV c.use_bias),
     ("kernel_initializer", ConfigValue.strV c.kernel_initializer),
     ("recurrent_initializer", ConfigValue.strV c.recurrent_initializer),
     ("bias_initializer", ConfigValue.strV c.bias_initializer),
     ("unit_forget_bias", ConfigValue.boolV c.unit_forget_bias),
     ("kernel_regularizer", ConfigValue.optStrV c.kernel_regularizer),
     ("recurrent_regularizer", ConfigValue.optStrV c.recurrent_regularizer),
     ("bias_regularizer", ConfigValue.optStrV c.bias_regularizer),
     ("activity_regularizer", ConfigValue.optStrV c.activity_regularizer),
     ("kernel_constraint", ConfigValue.optStrV c.kernel_constraint),
     ("recurrent_constraint", ConfigValue.optStrV c.recurrent_constraint),
     ("bias_constraint", ConfigValue.optStrV c.bias_constraint),
     ("dropout", ConfigValue.ratV c.dropout),
     ("recurrent_dropout", ConfigValue.ratV c.recurrent_dropout)]

/-- Every execution-mode flag and cell hyperparameter the spec requires the
serialized configuration to contain, in the order `get_config` emits them. -/
def requiredKeys : List String :=
  ["return_sequences", "go_backwards", "stateful", "unroll", "implementation",
   "units", "activation", "recurrent_activation", "use_bias",
   "kernel_initializer", "recurrent_initializer", "bias_initializer",
   "unit_forget_bias", "kernel_regularizer", "recurrent_regularizer",
   "bias_regularizer", "activity_regularizer", "kernel_constraint",
   "recurrent_constraint", "bias_constraint", "dropout", "recurrent_dropout"]

/-- Modelled from the spec: claim C2 reads the state-path term of every
gate pre-activation as the projection of the dropout-masked previous `h`
(the first state vector).  This definition is `step` with `h_tm1` in place
of `u_tm1` in exactly the five recurrent projections, for comparison with
the source's `step`. -/
def stepRecurrentFromH (c : LSTMSNPCell) (inputs : List ℚ) (st : StepStates) :
    Except StepError (List ℚ × List (List ℚ)) :=
  if c.implementation = 2 then
    let zlin := vadd (kdot (maskMul inputs (st.dp_mask 0)) c.kernel (4 * c.units))
                     (kdot (maskMul st.h_tm1 (st.rec_dp_mask 0)) c.recurrent_kernel (4 * c.units))
    match (if c.use_bias then
             match c.bias with
             | some b => Except.ok (vadd zlin b)
             | none => Except.error StepError.noneBiasAdd
           else Except.ok zlin : Except StepError (List ℚ)) with
    | Except.error e => Except.error e
    | Except.ok z =>
      let r := (sliceCols z 0 c.units).map c.recurrent_activation
      let cg := (sliceCols z c.units (2 * c.units)).map c.recurrent_activation
      let o := (sliceCols z (2 * c.units) (3 * c.units)).map c.recurrent_activation
      let a := (z.drop (3 * c.units)).map c.activation
      let u := vsub (vmul r st.u_tm1) (vmul cg a)
      let h := vmul o a
      Except.ok (h, [h, u])
  else
    match inputTerms c inputs st.dp_mask with
    | Except.error e => Except.error e
    | Except.ok (x_r, x_c, x_o, x_a) =>
      let r := (vadd x_r (kdot (maskMul st.h_tm1 (st.rec_dp_mask 0))
                  c.recurrent_kernel_r c.units)).map c.recurrent_activation
      let cg := (vadd x_c (kdot (maskMul st.h_tm1 (st.rec_dp_mask 1))
                  c.recurrent_kernel_c c.units)).map c.recurrent_activation
      let o := (vadd x_o (kdot (maskMul st.h_tm1 (st.rec_dp_mask 2))
                  c.recurrent_kernel_o c.units)).map c.recurrent_activation
      let a := (vadd x_a (kdot (maskMul st.h_tm1 (st.rec_dp_mask 3))
                  c.recurrent_kernel_a c.units)).map c.recurrent_activation
      let u := vsub (vmul r st.u_tm1) (vmul cg a)
      let h := vmul o a
      Except.ok (h, [h, u])

/-- Modelled from the spec: claim C3 reads the candidate gate as activated
by the primary activation in modes 1 and 2, and by the recurrent activation
only in mode 0.  This definition is `step` with the candidate activation in
the modes-0/1 branch chosen per that reading, for comparison with the
source's `step` (which applies the recurrent activation in both modes 0
and 1). -/
def stepCandidatePrimary (c : LSTMSNPCell) (inputs : List ℚ) (st : StepStates) :
    Except StepError (List ℚ × List (List ℚ)) :=
  if c.implementation = 2 then
    let zlin := vadd (kdot (maskMul inputs (st.dp_mask 0)) c.kernel (4 * c.units))
                     (kdot (maskMul st.u_tm1 (st.rec_dp_mask 0)) c.recurrent_kernel (4 * c.units))
    match (if c.use_bias then
             match c.bias with
             | some b => Except.ok (vadd zlin b)
             | none => Except.error StepError.noneBiasAdd
           else Except.ok zlin : Except StepError (List ℚ)) with
    | Except.error e => Except.error e
    | Except.ok z =>
      let r := (sliceCols z 0 c.units).map c.recurrent_activation
      let cg := (sliceCols z c.units (2 * c.units)).map c.recurrent_activation
      let o := (sliceCols z (2 * c.units) (3 * c.units)).map c.recurrent_activation
      let a := (z.drop (3 * c.units)).map c.activation
      let u := vsub (vmul r st.u_tm1) (vmul cg a)
      let h := vmul o a
      Except.ok (h, [h, u])
  else
    match inputTerms c inputs st.dp_mask with
    | Except.error e => Except.error e
    | Except.ok (x_r, x_c, x_o, x_a) =>
      let candAct := if c.implementation = 0 then c.recurrent_activation else c.activation
      let r := (vadd x_r (kdot (maskMul st.u_tm1 (st.rec_dp_mask 0))
                  c.recurrent_kernel_r c.units)).map c.recurrent_activation
      let cg := (vadd x_c (kdot (maskMul st.u_tm1 (st.rec_dp_mask 1))
                  c.recurrent_kernel_c c.units)).map c.recurrent_activation
      let o := (vadd x_o (kdot (maskMul st.u_tm1 (st.rec_dp_mask 2))
                  c.recurrent_kernel_o c.units)).map c.recurrent_activation
      let a := (vadd x_a (kdot (maskMul st.u_tm1 (st.rec_dp_mask 3))
                  c.recurrent_kernel_a c.units)).map candAct
      let u := vsub (vmul r st.u_tm1) (vmul cg a)
      let h := vmul o a
      Except.ok (h, [h, u])

instance {ε α : Type} [DecidableEq ε] [DecidableEq α] : DecidableEq (Except ε α) := fun x y =>
  match x, y with
  | Except.ok a, Except.ok b =>
      if h : a = b then isTrue (congrArg Except.ok h)
      else isFalse (fun hh => h (Except.ok.inj hh))
  | Except.error a, Except.error b =>
      if h : a = b then isTrue (congrArg Except.error h)
      else isFalse (fun hh => h (Except.error.inj hh))
  | Except.ok _, Except.error _ => isFalse (fun hh => Except.noConfusion hh)
  | Except.error _, Except.ok _ => isFalse (fun hh => Except.noConfusion hh)

/-- A concrete mode-2 cell (one unit, no bias, identity activations) whose
gate pre-activations depend only on the recurrent projection: the input
kernel is zero, the recurrent kernel is all ones. -/
def cellRecOnly : LSTMSNPCell :=
  { units := 1
    implementation := 2
    activation := fun x => x
    recurrent_activation := fun x => x
    use_bias := false
    dropout := 0
    recurrent_dropout := 0
    kernel := [[0, 0, 0, 0]]
    recurrent_kernel := [[1, 1, 1, 1]]
    bias := none }

/-- Step states with `h_tm1 = [0]`, `u_tm1 = [1]` and no-op dropout masks:
a point where the previous output and the previous accumulator differ. -/
def statesHZeroUOne : StepStates :=
  { h_tm1 := [0]
    u_tm1 := [1]
    dp_mask := fun _ => Mask.scalar 1
    rec_dp_mask := fun _ => Mask.scalar 1 }

/-- A concrete mode-1 cell (one unit, zero bias, distinct activations:
primary is the identity, recurrent adds one) whose gate pre-activations all
equal `1` at the probe input. -/
def cellModeOne : LSTMSNPCell :=
  { units := 1
    implementation := 1
    activation := fun x => x
    recurrent_activation := fun x => x + 1
    use_bias := true
    dropout := 0
    recurrent_dropout := 0
    kernel := [[1, 1, 1, 1]]
    recurrent_kernel := [[0, 0, 0, 0]]
    bias := some [0, 0, 0, 0] }

/-- Zero states with no-op dropout masks. -/
def statesZero : StepStates :=
  { h_tm1 := [0]
    u_tm1 := [0]
    dp_mask := fun _ => Mask.scalar 1
    rec_dp_mask := fun _ => Mask.scalar 1 }

/-- `cellModeOne` with `use_bias` disabled, as `build` would produce it:
the bias (hence every bias slice) is `None`. -/
def cellModeOneNoBias : LSTMSNPCell :=
  { units := 1
    implementation := 1
    activation := fun x => x
    recurrent_activation := fun x => x + 1
    use_bias := false
    dropout := 0
    recurrent_dropout := 0
    kernel := [[1, 1, 1, 1]]
    recurrent_kernel := [[0, 0, 0, 0]]
    bias := none }

/-- A concrete serialized configuration for witnessing `get_config`. -/
def configSample : LSTMSNPConfig :=
  { return_sequences := true
    go_backwards := false
    stateful := false
    unroll := false
    implementation := 1
    units := 2
    activation := "tanh"
    recurrent_activation := "hard_sigmoid"
    use_bias := true
    unit_forget_bias := true
    kernel_initializer := "glorot_uniform"
    recurrent_initializer := "orthogonal"
    bias_initializer := "zeros"
    kernel_regularizer := none
    recurrent_regularizer := none
    bias_regularizer := none
    activity_regularizer := none
    kernel_constraint := none
    recurrent_constraint := none
    bias_constraint := none
    dropout := 0
    recurrent_dropout := 0 }

theorem step_eq_stepGates (c : LSTMSNPCell) (inputs : List ℚ) (st : StepStates) :
    step c inputs st = (stepGates c inputs st).map
      (fun g => (vmul g.2.2.1 g.2.2.2,
                 [vmul g.2.2.1 g.2.2.2,
                  vsub (vmul g.1 st.u_tm1) (vmul g.2.1 g.2.2.2)])) := by
  by_cases h2 : c.implementation = 2
  · by_cases hb : c.use_bias
    · cases hbias : c.bias with
      | none => simp [step, stepGates, h2, hb, hbias, Except.map]
      | some b => simp [step, stepGates, h2, hb, hbias, Except.map]
    · simp [step, stepGates, h2, hb, Except.map]
  · cases hit : inputTerms c inputs st.dp_mask with
    | error e => simp [step, stepGates, h2, hit, Except.map]
    | ok g =>
      obtain ⟨xr, xc, xo, xa⟩ := g
      simp [step, stepGates, h2, hit, Except.map]

/-- C1: For every implementation mode, every input, every previous state
pair `(h_tm1, u_tm1)` and the gate values `(r, c, o, a)` the step computes,
`LSTMSNPCell.step` returns the new accumulator `u = r * u_tm1 - c * a`
(elementwise, with subtraction), the new output `h = o * a`, and yields `h`
as the step output together with the new state pair `[h, u]`. -/
theorem lstmsnp_step_update (c : LSTMSNPCell) (inputs : List ℚ) (st : StepStates) :
    step c inputs st = (stepGates c inputs st).map
      (fun g => (vmul g.2.2.1 g.2.2.2,
                 [vmul g.2.2.1 g.2.2.2,
                  vsub (vmul g.1 st.u_tm1) (vmul g.2.1 g.2.2.2)])) :=
  step_eq_stepGates c inputs st

/-- C2 counterexample: at a concrete mode-2 cell whose gates see only the
recurrent projection, with `h_tm1 = [0]` and `u_tm1 = [1]`, the source's
`step` disagrees with the claim's reading in which the state-path term
projects the dropout-masked previous `h`. -/
theorem step_recurrent_signal_not_h :
    step cellRecOnly [1] statesHZeroUOne
      ≠ stepRecurrentFromH cellRecOnly [1] statesHZeroUOne := by
  have h1 : step cellRecOnly [1] statesHZeroUOne = Except.ok ([1], [[1], [0]]) := by
    with_unfolding_all rfl
  have h2 : stepRecurrentFromH cellRecOnly [1] statesHZeroUOne
      = Except.ok ([0], [[0], [0]]) := by
    with_unfolding_all rfl
  rw [h1, h2]
  simp

/-- C2 amended: in every implementation mode the state-path term of each
gate pre-activation projects the dropout-masked previous accumulator
`u_tm1` (the second state vector), not `h_tm1`: `step` coincides with the
claim's formula evaluated with the accumulator in the role of the recurrent
signal, so in particular the step result never depends on `h_tm1`. -/
theorem step_recurrent_signal_is_accumulator (c : LSTMSNPCell) (inputs : List ℚ)
    (st : StepStates) :
    step c inputs st
      = stepRecurrentFromH c inputs ⟨st.u_tm1, st.u_tm1, st.dp_mask, st.rec_dp_mask⟩ := rfl

/-- C3 counterexample: at a concrete mode-1 cell whose primary and
recurrent activations differ, the source's `step` disagrees with the
claim's reading in which mode 1 applies the primary activation to the
candidate gate. -/
theorem mode1_candidate_not_primary :
    step cellModeOne [1] statesZero
      ≠ stepCandidatePrimary cellModeOne [1] statesZero := by
  have h1 : step cellModeOne [1] statesZero = Except.ok ([4], [[4], [-4]]) := by
    with_unfolding_all rfl
  have h2 : stepCandidatePrimary cellModeOne [1] statesZero
      = Except.ok ([2], [[2], [-2]]) := by
    with_unfolding_all rfl
  rw [h1, h2]
  simp

/-- C3 amended: only implementation mode 2 applies the primary activation
to the candidate; modes 0 and 1 apply the recurrent activation to it.  In
modes 0 and 2 the step agrees with the claim's formula, and in mode 1 it
agrees with the claim's formula only after the primary activation is
replaced by the recurrent one. -/
theorem candidate_primary_only_mode2 (c : LSTMSNPCell) (inputs : List ℚ)
    (st : StepStates) :
    (c.implementation = 0 ∨ c.implementation = 2 →
        step c inputs st = stepCandidatePrimary c inputs st) ∧
    (c.implementation = 1 →
        step c inputs st
          = stepCandidatePrimary
              { c with activation := c.recurrent_activation } inputs st) := by
  obtain ⟨u, impl, act, ract, ub, d, rd, k, rk, b⟩ := c
  constructor
  · rintro (h | h) <;> (have h2 : impl = _ := h; subst h2; rfl)
  · intro h
    have h2 : impl = 1 := h
    subst h2
    rfl

/-- C4: when `use_bias` and `unit_forget_bias` are both enabled, the bias
produced by `LSTMSNPCell.build` exists and its entries at indices
`units .. 2*units - 1` (the consume gate's sub-range) equal `1`, as a
build-time override of the bias initializer. -/
theorem build_unit_forget_bias (units implementation : Nat)
    (activation recurrent_activation : ℚ → ℚ) (use_bias unit_forget_bias : Bool)
    (dropout recurrent_dropout : ℚ) (input_dim : Nat)
    (kernelInit recurrentInit : Nat → Nat → List (List ℚ)) (biasInit : Nat → List ℚ)
    (i : Nat) (hub : use_bias = true) (hufb : unit_forget_bias = true)
    (hlo : units ≤ i) (hhi : i < 2 * units) :
    ∃ b, (LSTMSNPCell.build units implementation activation recurrent_activation
            use_bias unit_forget_bias dropout recurrent_dropout input_dim
            kernelInit recurrentInit biasInit).bias = some b ∧ b.get? i = some 1 := by
  subst hub; subst hufb
  refine ⟨(List.range (units * 4)).map
      (fun j => if units ≤ j ∧ j < units * 2 then (1 : ℚ) else 0), ?_, ?_⟩
  · simp [LSTMSNPCell.build]
  · have hi4 : i < units * 4 := by omega
    have h2m : i < units * 2 := by omega
    rw [List.get?_eq_getElem?, List.getElem?_map, List.getElem?_range hi4]
    simp [hlo, h2m]

theorem build_unit_forget_bias_witness :
    ∃ b, (LSTMSNPCell.build 2 0 (fun x => x) (fun x => x) true true 0 0 3
            (fun _ _ => []) (fun _ _ => []) (fun n => List.replicate n 5)).bias = some b ∧
         b.get? 2 = some 1 :=
  build_unit_forget_bias 2 0 (fun x => x) (fun x => x) true true 0 0 3
    (fun _ _ => []) (fun _ _ => []) (fun n => List.replicate n 5) 2
    rfl rfl (by omega) (by omega)

/-- C5 (code bug): with `use_bias` disabled, a mode-1 step does not
complete: `step` adds the `None` bias slices unconditionally (source lines
769-772), so the transition fails instead of computing the pre-activations
without a bias term.  Modes 0 and 2 guard the bias, mode 1 does not. -/
theorem step_mode1_without_bias_fails :
    step cellModeOneNoBias [1] statesZero = Except.error StepError.noneBiasAdd := by
  with_unfolding_all rfl

/-- C6: whenever the number of supplied (or derived) initial state tensors
differs from the declared state count, `Recurrent.call` returns the
shape-mismatch error carrying both counts, for every downstream scan
(`runRnn` is arbitrary, hence no recurrence step executes and no state
update is produced). -/
theorem call_state_count_mismatch {ρ : Type} (numStates : Nat)
    (initial_states : List (List ℚ)) (unroll : Bool) (timeDim : Option Nat)
    (runRnn : List (List ℚ) → ρ) (h : initial_states.length ≠ numStates) :
    RecurrentCall numStates initial_states unroll timeDim runRnn
      = Except.error (RecError.shapeMismatch numStates initial_states.length) := by
  simp [RecurrentCall, h]

theorem call_state_count_mismatch_witness :
    RecurrentCall 2 [[0]] false none (fun s => s.length)
      = Except.error (RecError.shapeMismatch 2 1) :=
  call_state_count_mismatch 2 [[0]] false none (fun s => s.length) (by simp)

/-- C7: with matching state counts, an unrolled call with a statically
unknown time extent returns the unroll-requires-static-length error for
every downstream scan, while an unrolled call with a known static time
extent proceeds to the scan. -/
theorem call_unroll_static_length {ρ : Type} (numStates : Nat)
    (initial_states : List (List ℚ)) (T : Nat) (runRnn : List (List ℚ) → ρ)
    (h : initial_states.length = numStates) :
    RecurrentCall numStates initial_states true none runRnn
        = Except.error RecError.unrollNeedsLength ∧
    RecurrentCall numStates initial_states true (some T) runRnn
        = Except.ok (runRnn initial_states) := by
  constructor <;> simp [RecurrentCall, h]

theorem call_unroll_static_length_witness :
    RecurrentCall 1 [[0]] true none (fun s => s.length)
        = Except.error RecError.unrollNeedsLength ∧
    RecurrentCall 1 [[0]] true (some 5) (fun s => s.length)
        = Except.ok 1 :=
  call_unroll_static_length 1 [[0]] 5 (fun s => s.length) rfl

/-- C8: for every implementation mode outside 0, 1, 2 the step raises the
unknown-implementation error, and for modes 0, 1 and 2 it never does. -/
theorem step_unknown_implementation (c : LSTMSNPCell) (inputs : List ℚ)
    (st : StepStates) :
    (c.implementation ≠ 0 ∧ c.implementation ≠ 1 ∧ c.implementation ≠ 2 →
      step c inputs st = Except.error StepError.unknownImplementation) ∧
    (c.implementation = 0 ∨ c.implementation = 1 ∨ c.implementation = 2 →
      step c inputs st ≠ Except.error StepError.unknownImplementation) := by
  constructor
  · rintro ⟨h0, h1, h2⟩
    simp [step, inputTerms, h0, h1, h2]
  · rintro (h | h | h)
    · simp [step, inputTerms, h]
    · cases hb : c.bias with
      | none =>
        simp [step, inputTerms, h, LSTMSNPCell.bias_r, LSTMSNPCell.bias_c,
              LSTMSNPCell.bias_o, LSTMSNPCell.bias_a, hb]
      | some b =>
        simp [step, inputTerms, h, LSTMSNPCell.bias_r, LSTMSNPCell.bias_c,
              LSTMSNPCell.bias_o, LSTMSNPCell.bias_a, hb]
    · by_cases hub : c.use_bias
      · cases hb : c.bias with
        | none => simp [step, h, hub, hb]
        | some b => simp [step, h, hub, hb]
      · simp [step, h, hub]

theorem step_unknown_implementation_witness :
    step cellModeOne [1] statesZero ≠ Except.error StepError.unknownImplementation :=
  (step_unknown_implementation cellModeOne [1] statesZero).2 (Or.inr (Or.inl rfl))

/-- C9: the serialized configuration returned by `LSTMSNPCell.get_config`
contains every execution-mode flag (`return_sequences`, `go_backwards`,
`stateful`, `unroll`, `implementation`) and every cell hyperparameter
(`units`, both activations, `use_bias`, `unit_forget_bias`, all
initializer/regularizer/constraint policies, and both dropout rates),
whatever the externally supplied base configuration is. -/
theorem get_config_contains_required (c : LSTMSNPConfig)
    (base_config : List (String × ConfigValue)) (k : String)
    (hk : k ∈ requiredKeys) :
    k ∈ (LSTMSNPCell.config c base_config).map Prod.fst := by
  have h1 : (LSTMSNPCell.config c base_config).map Prod.fst
      = base_config.map Prod.fst ++ requiredKeys := by
    simp [LSTMSNPCell.config, Recurrent.get_config, requiredKeys]
  rw [h1]
  exact List.mem_append_right _ hk

theorem get_config_contains_required_witness :
    "unit_forget_bias" ∈ (LSTMSNPCell.config configSample []).map Prod.fst :=
  get_config_contains_required configSample [] "unit_forget_bias" (by decide)

/-- C10: in implementation modes 1 and 2, `get_constants` returns the
input-path dropout constant as four copies of the scalar `1` for every
dropout rate and every possible drawn mask; a non-trivial input dropout
mask list is produced only in mode 0. -/
theorem get_constants_mode12_trivial_input_mask (c : LSTMSNPCell)
    (dropDraw recDropDraw : Fin 4 → List ℚ)
    (h : c.implementation = 1 ∨ c.implementation = 2) :
    (LSTMSNPCell.get_constants c dropDraw recDropDraw).get? 0
      = some (List.replicate 4 (Mask.scalar 1)) := by
  rcases h with h | h <;> simp [LSTMSNPCell.get_constants, h]

theorem get_constants_mode12_trivial_input_mask_witness :
    (LSTMSNPCell.get_constants { cellRecOnly with dropout := 1/2 }
        (fun _ => [0]) (fun _ => [0])).get? 0
      = some (List.replicate 4 (Mask.scalar 1)) :=
  get_constants_mode12_trivial_input_mask { cellRecOnly with dropout := 1/2 }
    (fun _ => [0]) (fun _ => [0]) (Or.inr rfl)

theorem candidate_primary_only_mode2_witness :
    step cellModeOne [1] statesZero
      = stepCandidatePrimary
          { cellModeOne with activation := cellModeOne.recurrent_activation }
          [1] statesZero :=
  (candidate_primary_only_mode2 cellModeOne [1] statesZero).2 rfl
